import Mathlib

/-!
Verification of the `Communicator` abstraction of this repository
(`src/curl/communicator/communicator.py`): the instrumentation wrapper
`_logging` / `logging_wrapper`, the stats counters, the verbosity flag,
and the generator registry `get_generator`.

The embedding is shallow: Python values that the wrapper inspects are
modelled by the inductive `PyVal` (a tensor is abstracted to its element
count, the only datum the instrumentation reads), exceptions by `PyError`,
and the mutable communicator by the record `Comm` threaded explicitly.
The abstract transport backend (the undecorated method body, which the
base class leaves unimplemented) is a parameter `func` of the wrapper,
acting on the positional arguments and never touching the counters.
Wall-clock measurement (`timeit.default_timer`) is abstracted to a
single rational `elapsed`, the measured duration `toc - tic`.
-/

set_option autoImplicit false

namespace Curl

/-- Python exception classes that the modelled code can raise.
Message payloads are elided; the class alone distinguishes them. -/
inductive PyError where
  | typeError
  | indexError
  | attributeError
  | runtimeError
  | valueError
  | assertionError
deriving DecidableEq, Repr

/-- Python values the wrapper inspects: tensors (abstracted to their
element count), lists, booleans, integers, `None`. -/
inductive PyVal where
  | tensor (nelement : Nat)
  | vlist (xs : List PyVal)
  | pybool (b : Bool)
  | pyint (n : Int)
  | pynone

/-- `x.nelement()`: defined on tensors, `AttributeError` otherwise. -/
def PyVal.nelement : PyVal → Except PyError Nat
  | .tensor n => .ok n
  | _ => .error .attributeError

/-- The communicator instance: `world_size` (from `get_world_size`),
the subclass-supplied class constant `BYTES_PER_ELEMENT`, and the three
statistics counters mutated by the instrumentation. -/
structure Comm where
  world_size : Nat
  BYTES_PER_ELEMENT : Nat
  comm_rounds : Nat
  comm_bytes : Nat
  comm_time : ℚ
deriving DecidableEq, Repr

/-- `reset_communication_stats` (communicator.py:118-122): zeroes the
three counters. -/
def reset_communication_stats (self : Comm) : Comm :=
  { self with comm_rounds := 0, comm_bytes := 0, comm_time := 0 }

/-- `_log_communication(self, nelement)` (communicator.py:133-136):
one round, `nelement * BYTES_PER_ELEMENT` bytes. -/
def _log_communication (self : Comm) (nelement : Nat) : Comm :=
  { self with
      comm_rounds := self.comm_rounds + 1,
      comm_bytes := self.comm_bytes + nelement * self.BYTES_PER_ELEMENT }

/-- A Python positional call to `self._log_communication`: the method has
exactly one parameter besides `self`, so any other number of positional
arguments raises `TypeError` before the body runs. -/
def call_log_communication (self : Comm) (posArgs : List Nat) :
    Except PyError Comm :=
  match posArgs with
  | [n] => .ok (_log_communication self n)
  | _ => .error .typeError

/-- `_log_communication_time(self, comm_time)` (communicator.py:138-139). -/
def _log_communication_time (self : Comm) (comm_time : ℚ) : Comm :=
  { self with comm_time := self.comm_time + comm_time }

/-- `args[0][0].nelement() * (len(args[0]) - 1)` of the `scatter` branch
(communicator.py:187).  `args[0]` must be indexable (a list here; indexing
an empty one raises `IndexError`) and its head a tensor. -/
def scatter_nelement (args : List PyVal) : Except PyError Nat :=
  match args with
  | [] => .error .indexError
  | a0 :: _ =>
    match a0 with
    | .vlist [] => .error .indexError
    | .vlist (x :: xs) =>
      match x.nelement with
      | .error e => .error e
      | .ok n => .ok (n * ((x :: xs).length - 1))
    | _ => .error .typeError

/-- `sum(x.nelement() for x in args[0])` of the batched branch
(communicator.py:189), left to right, first failure wins. -/
def batched_nelement : List PyVal → Except PyError Nat
  | [] => .ok 0
  | x :: xs =>
    match x.nelement with
    | .error e => .error e
    | .ok n =>
      match batched_nelement xs with
      | .error e => .error e
      | .ok m => .ok (n + m)

/-- The element count that the non-`barrier` branches of the stats block
(communicator.py:186-192) pass to `_log_communication`: the scatter
count, the batched sum, or the single payload's `args[0].nelement()`. -/
def logged_nelement (funcName : String) (batched : Bool)
    (args : List PyVal) : Except PyError Nat :=
  if funcName = "scatter" then
    scatter_nelement args
  else if batched then
    match args with
    | [] => .error .indexError
    | a0 :: _ =>
      match a0 with
      | .vlist xs => batched_nelement xs
      | _ => .error .typeError
  else
    match args with
    | [] => .error .indexError
    | a0 :: _ => a0.nelement

/-- The stats-recording block of `logging_wrapper`
(communicator.py:184-192): the `barrier` branch is the literal source
call `self._log_communication(0, 1)` with two positional arguments;
every other branch computes its element count and passes it to
`_log_communication` as the single argument. -/
def stats_step (funcName : String) (batched : Bool) (args : List PyVal)
    (self : Comm) : Except PyError Comm :=
  if funcName = "barrier" then
    call_log_communication self [0, 1]
  else
    match logged_nelement funcName batched args with
    | .error e => .error e
    | .ok n => call_log_communication self [n]

/-- The part of `logging_wrapper` after the `world_size < 2` shortcut
(communicator.py:182-201): with verbosity on, record stats, run the
backend, record the measured duration; with verbosity off, just run the
backend.  The final state is returned alongside the outcome because a
Python exception leaves earlier mutations of `self` in place. -/
def logging_rest (funcName : String)
    (func : List PyVal → Except PyError PyVal) (verbose : Bool)
    (elapsed : ℚ) (batched : Bool) (args : List PyVal) (self : Comm) :
    Except PyError PyVal × Comm :=
  if verbose then
    match stats_step funcName batched args self with
    | .error e => (.error e, self)
    | .ok self1 =>
      match func args with
      | .error e => (.error e, self1)
      | .ok result => (.ok result, _log_communication_time self1 elapsed)
  else
    (func args, self)

/-- `logging_wrapper` (communicator.py:172-201): the decorator around a
collective named `funcName` with backend body `func`.  When
`world_size < 2`, `gather`/`all_gather` return `[args[0]]` and any other
call with positional arguments returns `args[0]`, without invoking the
backend; an argument-less call (e.g. `barrier`) falls through to the
logging section, as does every call when `world_size >= 2`. -/
def logging_wrapper (funcName : String)
    (func : List PyVal → Except PyError PyVal) (verbose : Bool)
    (elapsed : ℚ) (batched : Bool) (args : List PyVal) (self : Comm) :
    Except PyError PyVal × Comm :=
  if self.world_size < 2 then
    if funcName = "gather" ∨ funcName = "all_gather" then
      match args with
      | [] => (.error .indexError, self)
      | a :: _ => (.ok (.vlist [a]), self)
    else
      match args with
      | [] => logging_rest funcName func verbose elapsed batched args self
      | a :: _ => (.ok a, self)
  else
    logging_rest funcName func verbose elapsed batched args self

/-- A sequence of wrapped calls sharing one communicator and one
verbosity setting: each entry carries the wrapped function's name, its
backend body, the measured duration, the `batched` keyword and the
positional arguments. -/
structure CallSpec where
  funcName : String
  func : List PyVal → Except PyError PyVal
  elapsed : ℚ
  batched : Bool
  args : List PyVal

/-- Run wrapped calls in sequence, stopping at the first exception. -/
def run_calls (verbose : Bool) : List CallSpec → Comm → Except PyError Comm
  | [], self => .ok self
  | c :: rest, self =>
    match logging_wrapper c.funcName c.func verbose c.elapsed c.batched
        c.args self with
    | (.error e, _) => .error e
    | (.ok _, self1) => run_calls verbose rest self1

/-- The device classes `get_generator` distinguishes: `torch.device(d)`
is only ever inspected through `device.type == "cuda"`. -/
inductive Device where
  | cpu
  | cuda
deriving DecidableEq

/-- The generator attributes a communicator may carry (`g0`, `g1`,
`g0_cuda`, `g1_cuda`), each `none` until provisioned by global setup;
`getattr(self, name, None)` on an absent attribute yields `none`.
The generators themselves are abstracted to handles (`Nat`). -/
structure GenTable where
  g0 : Option Nat
  g1 : Option Nat
  g0_cuda : Option Nat
  g1_cuda : Option Nat
deriving DecidableEq

/-- `getattr(self, f"g{idx}_cuda" if device.type == "cuda" else f"g{idx}",
None)` (communicator.py:158-159), for `idx` in `{0, 1}`. -/
def resolved_generator (self : GenTable) (idx : Int) (dev : Device) :
    Option Nat :=
  match dev with
  | .cuda => if idx = 0 then self.g0_cuda else self.g1_cuda
  | .cpu => if idx = 0 then self.g0 else self.g1

/-- `get_generator(self, idx, device=None)` (communicator.py:141-166):
an omitted device defaults to `torch.device("cpu")`; an index outside
`{0, 1}` raises `RuntimeError`; an unprovisioned resolved generator
raises `ValueError`; otherwise the generator is returned. -/
def get_generator (self : GenTable) (idx : Int)
    (device : Option Device) : Except PyError Nat :=
  let dev : Device :=
    match device with
    | none => Device.cpu
    | some d => d
  if ¬(idx = 0 ∨ idx = 1) then
    .error .runtimeError
  else
    match resolved_generator self idx dev with
    | none => .error .valueError
    | some generator => .ok generator

/-- `is_verbose(cls)` (communicator.py:22-24): returns the single
class-wide `__verbosity` flag; no per-instance state is involved. -/
def is_verbose (verbosity : Bool) : Bool := verbosity

/-- `set_verbosity(cls, verbosity)` (communicator.py:26-29): the
`isinstance(verbosity, bool)` assertion rejects any non-boolean argument
with `AssertionError` before the flag is touched; a boolean becomes the
new class-wide flag.  Returns the call's outcome and the flag after the
call. -/
def set_verbosity (current : Bool) (verbosity : PyVal) :
    Except PyError Unit × Bool :=
  match verbosity with
  | .pybool b => (.ok (), b)
  | _ => (.error .assertionError, current)

/-! ### Theorems -/

/-- C1: the claim says a wrapped `barrier` with verbosity on and
`world_size = 2` records one round and zero bytes; instead the stats
branch executes `self._log_communication(0, 1)`, a two-argument call to a
one-parameter method, so the call raises `TypeError`, the backend never
runs, and the counters are left untouched. -/
theorem barrier_verbose_crashes :
    logging_wrapper "barrier" (fun _ => .ok .pynone) true 0 false []
      { world_size := 2, BYTES_PER_ELEMENT := 8, comm_rounds := 0,
        comm_bytes := 0, comm_time := 0 } =
    (.error .typeError,
      { world_size := 2, BYTES_PER_ELEMENT := 8, comm_rounds := 0,
        comm_bytes := 0, comm_time := 0 }) := rfl

/-- C2: with `world_size = 1`, `gather`/`all_gather` on `x` return the
one-element list `[x]` and every other call with positional arguments
returns its first argument, in all four cases for every backend `func`
(so the backend is never invoked); a `barrier` with verbosity off runs
the backend normally; but — against the claim — a `barrier` with
verbosity on falls into the stats branch, whose
`_log_communication(0, 1)` call raises `TypeError` instead of executing
the backend. -/
theorem degenerate_world_size_behaviour :
    (∀ (func : List PyVal → Except PyError PyVal) (verbose : Bool)
        (elapsed : ℚ) (batched : Bool) (x : PyVal) (rest : List PyVal)
        (s : Comm), s.world_size = 1 →
      logging_wrapper "gather" func verbose elapsed batched (x :: rest) s =
          (.ok (.vlist [x]), s) ∧
      logging_wrapper "all_gather" func verbose elapsed batched (x :: rest)
          s = (.ok (.vlist [x]), s)) ∧
    (∀ (funcName : String) (func : List PyVal → Except PyError PyVal)
        (verbose : Bool) (elapsed : ℚ) (batched : Bool) (x : PyVal)
        (rest : List PyVal) (s : Comm), s.world_size = 1 →
      funcName ≠ "gather" → funcName ≠ "all_gather" →
      logging_wrapper funcName func verbose elapsed batched (x :: rest) s =
          (.ok x, s)) ∧
    (∀ (func : List PyVal → Except PyError PyVal) (elapsed : ℚ) (s : Comm),
      s.world_size = 1 →
      logging_wrapper "barrier" func false elapsed false [] s =
          (func [], s)) ∧
    logging_wrapper "barrier" (fun _ => .ok (.pybool true)) true 0 false []
      { world_size := 1, BYTES_PER_ELEMENT := 8, comm_rounds := 0,
        comm_bytes := 0, comm_time := 0 } =
    (.error .typeError,
      { world_size := 1, BYTES_PER_ELEMENT := 8, comm_rounds := 0,
        comm_bytes := 0, comm_time := 0 }) := by
  refine ⟨?_, ?_, ?_, rfl⟩
  · intro func verbose elapsed batched x rest s hs
    constructor <;> simp [logging_wrapper, hs]
  · intro funcName func verbose elapsed batched x rest s hs h1 h2
    simp [logging_wrapper, hs, h1, h2]
  · intro func elapsed s hs
    simp [logging_wrapper, hs, logging_rest]

/-- C2 witness. -/
theorem degenerate_world_size_behaviour_witness :
    logging_wrapper "all_reduce" (fun _ => .ok .pynone) true 0 false
      [.tensor 5]
      { world_size := 1, BYTES_PER_ELEMENT := 8, comm_rounds := 0,
        comm_bytes := 0, comm_time := 0 } =
    (.ok (.tensor 5),
      { world_size := 1, BYTES_PER_ELEMENT := 8, comm_rounds := 0,
        comm_bytes := 0, comm_time := 0 }) :=
  degenerate_world_size_behaviour.2.1 "all_reduce" _ true 0 false
    (.tensor 5) [] _ rfl (by decide) (by decide)

/-- C3 counterexample: with `world_size = 1`, a wrapped `scatter` whose
scatter list is `[tensor 5]` returns the whole list, which is not the
calling party's single destined value `tensor 5`. -/
theorem scatter_world_size_one_returns_list :
    logging_wrapper "scatter" (fun _ => .ok .pynone) false 0 false
      [.vlist [.tensor 5], .pyint 0]
      { world_size := 1, BYTES_PER_ELEMENT := 8, comm_rounds := 0,
        comm_bytes := 0, comm_time := 0 } =
    (.ok (.vlist [.tensor 5]),
      { world_size := 1, BYTES_PER_ELEMENT := 8, comm_rounds := 0,
        comm_bytes := 0, comm_time := 0 }) ∧
    PyVal.vlist [.tensor 5] ≠ PyVal.tensor 5 :=
  ⟨rfl, fun h => PyVal.noConfusion h⟩

/-- C3 amended: with `world_size = 1`, a wrapped `scatter` returns its
first positional argument — the entire scatter list — unchanged, not the
calling party's single destined value, for every backend and verbosity
setting. -/
theorem scatter_world_size_one_amended
    (func : List PyVal → Except PyError PyVal) (verbose : Bool)
    (elapsed : ℚ) (batched : Bool) (lst : PyVal) (rest : List PyVal)
    (s : Comm) (hs : s.world_size = 1) :
    logging_wrapper "scatter" func verbose elapsed batched (lst :: rest) s =
      (.ok lst, s) := by
  simp [logging_wrapper, hs]

/-- C3 amended witness. -/
theorem scatter_world_size_one_amended_witness :
    logging_wrapper "scatter" (fun _ => .ok .pynone) true 0 false
      [.vlist [.tensor 7], .pyint 0]
      { world_size := 1, BYTES_PER_ELEMENT := 8, comm_rounds := 0,
        comm_bytes := 0, comm_time := 0 } =
    (.ok (.vlist [.tensor 7]),
      { world_size := 1, BYTES_PER_ELEMENT := 8, comm_rounds := 0,
        comm_bytes := 0, comm_time := 0 }) :=
  scatter_world_size_one_amended _ true 0 false (.vlist [.tensor 7])
    [.pyint 0] _ rfl

/-- C4: the claim says the delivered result has the same shape with
verbosity on and off for every collective at `world_size >= 2`; for
`barrier` at `world_size = 2` the verbose run raises `TypeError` (the
`_log_communication(0, 1)` arity bug) while the non-verbose run returns
the backend's result, so the two runs do not agree. -/
theorem barrier_shape_depends_on_verbosity :
    (logging_wrapper "barrier" (fun _ => .ok .pynone) true 0 false []
      { world_size := 2, BYTES_PER_ELEMENT := 8, comm_rounds := 0,
        comm_bytes := 0, comm_time := 0 }).1 = .error .typeError ∧
    (logging_wrapper "barrier" (fun _ => .ok .pynone) false 0 false []
      { world_size := 2, BYTES_PER_ELEMENT := 8, comm_rounds := 0,
        comm_bytes := 0, comm_time := 0 }).1 = .ok .pynone ∧
    (Except.error PyError.typeError : Except PyError PyVal) ≠
      .ok .pynone :=
  ⟨rfl, rfl, fun h => Except.noConfusion h⟩

/-- Helper: one verbose, non-batched wrapped call on a `k`-element tensor
at `world_size ≥ 2`, for any wrapped function other than `barrier` and
`scatter`, logs one round and `k * BYTES_PER_ELEMENT` bytes and adds the
measured duration. -/
theorem logging_wrapper_single (funcName : String)
    (func : List PyVal → Except PyError PyVal) (elapsed : ℚ) (k : Nat)
    (rest : List PyVal) (v : PyVal) (s : Comm) (hws : 2 ≤ s.world_size)
    (hb : funcName ≠ "barrier") (hsc : funcName ≠ "scatter")
    (hf : func (.tensor k :: rest) = .ok v) :
    logging_wrapper funcName func true elapsed false (.tensor k :: rest)
        s =
      (.ok v,
        { s with
            comm_rounds := s.comm_rounds + 1,
            comm_bytes := s.comm_bytes + k * s.BYTES_PER_ELEMENT,
            comm_time := s.comm_time + elapsed }) := by
  have hws2 : ¬ s.world_size < 2 := by omega
  simp [logging_wrapper, hws2, logging_rest, stats_step, logged_nelement,
    hb, hsc, PyVal.nelement, call_log_communication, hf,
    _log_communication, _log_communication_time]

/-- Helper: running a list of verbose, non-batched, single-`k`-element-
tensor calls that all succeed, from any starting state at
`world_size ≥ 2`, adds one round and `k * BYTES_PER_ELEMENT` bytes per
call. -/
theorem run_calls_nonbatched (specs : List CallSpec) (k : Nat) (s : Comm)
    (hws : 2 ≤ s.world_size)
    (hcalls : ∀ c ∈ specs, c.funcName ≠ "barrier" ∧
      c.funcName ≠ "scatter" ∧ c.batched = false ∧
      (∃ rest, c.args = .tensor k :: rest) ∧
      (∃ v, c.func c.args = .ok v)) :
    ∃ sN, run_calls true specs s = .ok sN ∧
      sN.comm_rounds = s.comm_rounds + specs.length ∧
      sN.comm_bytes =
        s.comm_bytes + specs.length * (k * s.BYTES_PER_ELEMENT) ∧
      sN.world_size = s.world_size ∧
      sN.BYTES_PER_ELEMENT = s.BYTES_PER_ELEMENT := by
  induction specs generalizing s with
  | nil => exact ⟨s, rfl, by simp, by simp, rfl, rfl⟩
  | cons c rest ih =>
    obtain ⟨hb, hsc, hbt, ⟨cargs, hargs⟩, ⟨v, hv⟩⟩ :=
      hcalls c (List.mem_cons_self c rest)
    have hstep := logging_wrapper_single c.funcName c.func c.elapsed k
      cargs v s hws hb hsc (hargs ▸ hv)
    obtain ⟨sN, hrun, hr, hby, hw, hB⟩ := ih
      { s with
          comm_rounds := s.comm_rounds + 1,
          comm_bytes := s.comm_bytes + k * s.BYTES_PER_ELEMENT,
          comm_time := s.comm_time + c.elapsed }
      hws (fun d hd => hcalls d (List.mem_cons_of_mem c hd))
    refine ⟨sN, ?_, ?_, ?_, hw, hB⟩
    · rw [run_calls, hbt, hargs, hstep]
      exact hrun
    · simp only [hr]; simp [List.length_cons]; ring
    · simp only [hby]; simp [List.length_cons]; ring


/-- C5: with verbosity on and `world_size ≥ 2`, starting from freshly
reset counters, `N` successful non-batched wrapped calls (none of them
`barrier` or `scatter`) each carrying a `k`-element tensor leave
`comm_rounds = N` and `comm_bytes = N * k * BYTES_PER_ELEMENT`. -/
theorem nonbatched_calls_stats (specs : List CallSpec) (k : Nat)
    (s : Comm) (hws : 2 ≤ s.world_size)
    (hcalls : ∀ c ∈ specs, c.funcName ≠ "barrier" ∧
      c.funcName ≠ "scatter" ∧ c.batched = false ∧
      (∃ rest, c.args = .tensor k :: rest) ∧
      (∃ v, c.func c.args = .ok v)) :
    ∃ sN, run_calls true specs (reset_communication_stats s) = .ok sN ∧
      sN.comm_rounds = specs.length ∧
      sN.comm_bytes = specs.length * (k * s.BYTES_PER_ELEMENT) := by
  obtain ⟨sN, hrun, hr, hby, -, -⟩ := run_calls_nonbatched specs k
    (reset_communication_stats s) hws hcalls
  exact ⟨sN, hrun, by simpa [reset_communication_stats] using hr,
    by simpa [reset_communication_stats] using hby⟩

/-- C5 witness: two `all_reduce` calls on 3-element tensors with
`BYTES_PER_ELEMENT = 8` give 2 rounds and 48 bytes. -/
theorem nonbatched_calls_stats_witness :
    ∃ sN, run_calls true
        [⟨"all_reduce", fun _ => .ok .pynone, 1, false, [.tensor 3]⟩,
         ⟨"all_reduce", fun _ => .ok .pynone, 1, false, [.tensor 3]⟩]
        (reset_communication_stats
          { world_size := 2, BYTES_PER_ELEMENT := 8, comm_rounds := 5,
            comm_bytes := 77, comm_time := 9 }) = .ok sN ∧
      sN.comm_rounds = 2 ∧ sN.comm_bytes = 2 * (3 * 8) := by
  refine nonbatched_calls_stats _ 3 _ (by decide) ?_
  intro c hc
  simp only [List.mem_cons, List.not_mem_nil, or_false] at hc
  rcases hc with rfl | rfl <;>
    exact ⟨by decide, by decide, rfl, ⟨[], rfl⟩, ⟨.pynone, rfl⟩⟩

/-- C6: with verbosity on and `world_size ≥ 2`, a successful wrapped
`scatter` whose scatter list holds exactly `world_size` tensors of `n`
elements each logs exactly one round and
`n * (world_size - 1) * BYTES_PER_ELEMENT` bytes. -/
theorem scatter_logs_once (func : List PyVal → Except PyError PyVal)
    (elapsed : ℚ) (batched : Bool) (n : Nat) (ts : List PyVal)
    (rest : List PyVal) (v : PyVal) (s : Comm) (hws : 2 ≤ s.world_size)
    (hlen : ts.length = s.world_size)
    (hts : ∀ t ∈ ts, t = PyVal.tensor n)
    (hf : func (.vlist ts :: rest) = .ok v) :
    logging_wrapper "scatter" func true elapsed batched
        (.vlist ts :: rest) s =
      (.ok v,
        { s with
            comm_rounds := s.comm_rounds + 1,
            comm_bytes := s.comm_bytes +
              n * (s.world_size - 1) * s.BYTES_PER_ELEMENT,
            comm_time := s.comm_time + elapsed }) := by
  have hws2 : ¬ s.world_size < 2 := by omega
  obtain ⟨t0, ts', rfl⟩ : ∃ t0 ts', ts = t0 :: ts' := by
    cases ts with
    | nil => simp at hlen; omega
    | cons a l => exact ⟨a, l, rfl⟩
  have ht0 : t0 = PyVal.tensor n := hts t0 (List.mem_cons_self t0 ts')
  subst ht0
  have hlen' : ts'.length + 1 = s.world_size := by
    simpa using hlen
  rw [show s.world_size - 1 = ts'.length from by omega]
  simp [logging_wrapper, hws2, logging_rest, stats_step, logged_nelement,
    scatter_nelement, PyVal.nelement, call_log_communication, hf,
    _log_communication, _log_communication_time]

/-- C6 witness: `world_size = 4`, four 10-element tensors,
`BYTES_PER_ELEMENT = 8`: one round, `10 * 3 * 8 = 240` bytes. -/
theorem scatter_logs_once_witness :
    logging_wrapper "scatter" (fun _ => .ok .pynone) true 0 false
      [.vlist [.tensor 10, .tensor 10, .tensor 10, .tensor 10],
       .pyint 0]
      { world_size := 4, BYTES_PER_ELEMENT := 8, comm_rounds := 0,
        comm_bytes := 0, comm_time := 0 } =
    (.ok .pynone,
      { world_size := 4, BYTES_PER_ELEMENT := 8, comm_rounds := 1,
        comm_bytes := 10 * (4 - 1) * 8, comm_time := 0 }) := by
  have h := scatter_logs_once (fun _ => .ok .pynone) 0 false 10
    [.tensor 10, .tensor 10, .tensor 10, .tensor 10] [.pyint 0] .pynone
    { world_size := 4, BYTES_PER_ELEMENT := 8, comm_rounds := 0,
      comm_bytes := 0, comm_time := 0 }
    (by decide) (by decide) (by simp) rfl
  simpa using h

/-- C7: `get_generator` with an omitted device resolves exactly as with
the CPU device class; any index outside `{0, 1}` raises `RuntimeError`
(OutOfRange); for an index in `{0, 1}`, an unprovisioned resolved
generator raises `ValueError` (the generator-specific NotInitialized),
and a provisioned one is returned. -/
theorem get_generator_spec :
    (∀ (s : GenTable) (idx : Int),
      get_generator s idx none = get_generator s idx (some .cpu)) ∧
    (∀ (s : GenTable) (idx : Int) (device : Option Device),
      idx ≠ 0 → idx ≠ 1 →
      get_generator s idx device = .error .runtimeError) ∧
    (∀ (s : GenTable) (idx : Int) (dev : Device), (idx = 0 ∨ idx = 1) →
      resolved_generator s idx dev = none →
      get_generator s idx (some dev) = .error .valueError) ∧
    (∀ (s : GenTable) (idx : Int) (dev : Device) (g : Nat),
      (idx = 0 ∨ idx = 1) → resolved_generator s idx dev = some g →
      get_generator s idx (some dev) = .ok g) := by
  refine ⟨fun s idx => rfl, ?_, ?_, ?_⟩
  · intro s idx device h0 h1
    cases device <;> simp [get_generator, h0, h1]
  · intro s idx dev hidx hres
    have h : idx = 0 ∨ idx = 1 := hidx
    simp [get_generator, h, hres]
  · intro s idx dev g hidx hres
    simp [get_generator, hidx, hres]

/-- C7 witness: slot 2 is OutOfRange; slot 0 on the accelerator device
before provisioning is NotInitialized; a provisioned slot is returned. -/
theorem get_generator_spec_witness :
    get_generator ⟨none, none, none, none⟩ 2 none =
        .error .runtimeError ∧
    get_generator ⟨none, none, none, none⟩ 0 (some .cuda) =
        .error .valueError ∧
    get_generator ⟨some 7, none, none, none⟩ 0 (some .cpu) = .ok 7 :=
  ⟨get_generator_spec.2.1 _ 2 none (by decide) (by decide),
   get_generator_spec.2.2.1 _ 0 .cuda (Or.inl rfl) rfl,
   get_generator_spec.2.2.2 _ 0 .cpu 7 (Or.inl rfl) rfl⟩

/-- C8 counterexample: the claim says an instrumentation failure never
aborts the underlying communication; but for a verbose `barrier` at
`world_size = 2` the stats call fails with `TypeError`, the wrapper
returns that error, and the backend's result (`ok (pybool true)`) is
never delivered. -/
theorem stats_failure_aborts_backend_cex :
    logging_wrapper "barrier" (fun _ => .ok (.pybool true)) true 0 false
      []
      { world_size := 2, BYTES_PER_ELEMENT := 8, comm_rounds := 0,
        comm_bytes := 0, comm_time := 0 } =
    (.error .typeError,
      { world_size := 2, BYTES_PER_ELEMENT := 8, comm_rounds := 0,
        comm_bytes := 0, comm_time := 0 }) ∧
    (Except.error PyError.typeError : Except PyError PyVal) ≠
      .ok (.pybool true) :=
  ⟨rfl, fun h => Except.noConfusion h⟩

/-- C8 amended: when verbosity is on and `world_size ≥ 2`, a failure
while recording stats aborts the wrapped call: the wrapper returns the
instrumentation error with the state unchanged, the backend is never
invoked (the outcome is the same for every backend body and measured
duration), and no result is delivered. -/
theorem stats_failure_propagates (funcName : String)
    (func g : List PyVal → Except PyError PyVal) (elapsed elapsed2 : ℚ)
    (batched : Bool) (args : List PyVal) (s : Comm) (e : PyError)
    (hws : 2 ≤ s.world_size)
    (hstats : stats_step funcName batched args s = .error e) :
    logging_wrapper funcName func true elapsed batched args s =
        (.error e, s) ∧
    logging_wrapper funcName func true elapsed batched args s =
      logging_wrapper funcName g true elapsed2 batched args s := by
  have hws2 : ¬ s.world_size < 2 := by omega
  constructor <;> simp [logging_wrapper, hws2, logging_rest, hstats]

/-- C8 amended witness. -/
theorem stats_failure_propagates_witness :
    logging_wrapper "barrier" (fun _ => .ok (.pybool true)) true 1 false
      []
      { world_size := 2, BYTES_PER_ELEMENT := 8, comm_rounds := 0,
        comm_bytes := 0, comm_time := 0 } =
    (.error .typeError,
      { world_size := 2, BYTES_PER_ELEMENT := 8, comm_rounds := 0,
        comm_bytes := 0, comm_time := 0 }) :=
  (stats_failure_propagates "barrier" _ (fun _ => .error .valueError) 1 2
    false [] _ .typeError (by decide) rfl).1

/-- Helper: a successful `_log_communication` call only increases
`comm_rounds` and `comm_bytes` and leaves the other fields unchanged. -/
theorem call_log_le (s s1 : Comm) (l : List Nat)
    (h : call_log_communication s l = .ok s1) :
    s.comm_rounds ≤ s1.comm_rounds ∧ s.comm_bytes ≤ s1.comm_bytes ∧
      s.comm_time = s1.comm_time ∧ s.world_size = s1.world_size ∧
      s.BYTES_PER_ELEMENT = s1.BYTES_PER_ELEMENT := by
  match l with
  | [] => exact Except.noConfusion h
  | [n] =>
    simp only [call_log_communication, Except.ok.injEq] at h
    subst h
    exact ⟨Nat.le_succ _, Nat.le_add_right _ _, rfl, rfl, rfl⟩
  | n :: m :: r => exact Except.noConfusion h

/-- Helper: a successful stats step only increases `comm_rounds` and
`comm_bytes` and leaves `comm_time` unchanged. -/
theorem stats_step_le (funcName : String) (batched : Bool)
    (args : List PyVal) (s s1 : Comm)
    (h : stats_step funcName batched args s = .ok s1) :
    s.comm_rounds ≤ s1.comm_rounds ∧ s.comm_bytes ≤ s1.comm_bytes ∧
      s.comm_time = s1.comm_time ∧
      s.world_size = s1.world_size ∧
      s.BYTES_PER_ELEMENT = s1.BYTES_PER_ELEMENT := by
  unfold stats_step at h
  split_ifs at h
  · exact Except.noConfusion h
  · cases hn : logged_nelement funcName batched args <;> rw [hn] at h
    · exact Except.noConfusion h
    · exact call_log_le s s1 _ h

/-- Helper: the logging section never decreases any counter when the
measured duration is non-negative. -/
theorem logging_rest_state_le (funcName : String)
    (func : List PyVal → Except PyError PyVal) (verbose : Bool)
    (elapsed : ℚ) (batched : Bool) (args : List PyVal) (s : Comm)
    (he : 0 ≤ elapsed) :
    s.comm_rounds ≤
        (logging_rest funcName func verbose elapsed batched args
          s).2.comm_rounds ∧
      s.comm_bytes ≤
        (logging_rest funcName func verbose elapsed batched args
          s).2.comm_bytes ∧
      s.comm_time ≤
        (logging_rest funcName func verbose elapsed batched args
          s).2.comm_time := by
  unfold logging_rest
  split_ifs
  · cases hst : stats_step funcName batched args s with
    | error e => simp
    | ok s1 =>
      obtain ⟨h1, h2, h3, -, -⟩ := stats_step_le _ _ _ _ _ hst
      cases hfr : func args with
      | error e => exact ⟨h1, h2, le_of_eq h3⟩
      | ok v =>
        refine ⟨h1, h2, ?_⟩
        show s.comm_time ≤ s1.comm_time + elapsed
        rw [h3] at *
        linarith
  · simp

/-- C9: `reset_communication_stats` sets all three counters to zero in
one step, and — counts, byte width and measured durations being
non-negative — no wrapped call ever decreases `comm_rounds`,
`comm_bytes` or `comm_time`. -/
theorem stats_monotone_and_reset :
    (∀ s : Comm, (reset_communication_stats s).comm_rounds = 0 ∧
      (reset_communication_stats s).comm_bytes = 0 ∧
      (reset_communication_stats s).comm_time = 0) ∧
    (∀ (funcName : String)
        (func : List PyVal → Except PyError PyVal) (verbose : Bool)
        (elapsed : ℚ) (batched : Bool) (args : List PyVal) (s : Comm),
      0 ≤ elapsed →
      s.comm_rounds ≤
          (logging_wrapper funcName func verbose elapsed batched args
            s).2.comm_rounds ∧
        s.comm_bytes ≤
          (logging_wrapper funcName func verbose elapsed batched args
            s).2.comm_bytes ∧
        s.comm_time ≤
          (logging_wrapper funcName func verbose elapsed batched args
            s).2.comm_time) := by
  refine ⟨fun s => ⟨rfl, rfl, rfl⟩, ?_⟩
  intro funcName func verbose elapsed batched args s he
  unfold logging_wrapper
  split_ifs
  · cases args <;> simp
  · cases args with
    | nil =>
      exact logging_rest_state_le funcName func verbose elapsed batched [] s he
    | cons a r => simp
  · exact logging_rest_state_le funcName func verbose elapsed batched args s he

/-- C9 witness. -/
theorem stats_monotone_and_reset_witness :
    ({ world_size := 2, BYTES_PER_ELEMENT := 8, comm_rounds := 5,
       comm_bytes := 77, comm_time := 9 } : Comm).comm_rounds ≤
        (logging_wrapper "all_reduce" (fun _ => .ok .pynone) true 1
          false [.tensor 2]
          { world_size := 2, BYTES_PER_ELEMENT := 8, comm_rounds := 5,
            comm_bytes := 77, comm_time := 9 }).2.comm_rounds ∧
      ({ world_size := 2, BYTES_PER_ELEMENT := 8, comm_rounds := 5,
         comm_bytes := 77, comm_time := 9 } : Comm).comm_bytes ≤
        (logging_wrapper "all_reduce" (fun _ => .ok .pynone) true 1
          false [.tensor 2]
          { world_size := 2, BYTES_PER_ELEMENT := 8, comm_rounds := 5,
            comm_bytes := 77, comm_time := 9 }).2.comm_bytes ∧
      ({ world_size := 2, BYTES_PER_ELEMENT := 8, comm_rounds := 5,
         comm_bytes := 77, comm_time := 9 } : Comm).comm_time ≤
        (logging_wrapper "all_reduce" (fun _ => .ok .pynone) true 1
          false [.tensor 2]
          { world_size := 2, BYTES_PER_ELEMENT := 8, comm_rounds := 5,
            comm_bytes := 77, comm_time := 9 }).2.comm_time :=
  stats_monotone_and_reset.2 "all_reduce" (fun _ => .ok .pynone) true 1
    false [.tensor 2]
    { world_size := 2, BYTES_PER_ELEMENT := 8, comm_rounds := 5,
      comm_bytes := 77, comm_time := 9 } zero_le_one

/-- C10: `set_verbosity` rejects every non-boolean argument with
`AssertionError`, leaving the class-wide flag unchanged; a boolean
argument becomes the new flag, which `is_verbose` — a pure read of that
single class-wide flag, with no per-instance state — then reports. -/
theorem set_verbosity_spec :
    (∀ (current : Bool) (v : PyVal), (∀ b : Bool, v ≠ .pybool b) →
      set_verbosity current v = (.error .assertionError, current)) ∧
    (∀ (current b : Bool),
      set_verbosity current (.pybool b) = (.ok (), b) ∧
      is_verbose (set_verbosity current (.pybool b)).2 = b) := by
  refine ⟨?_, fun current b => ⟨rfl, rfl⟩⟩
  intro current v hv
  cases v with
  | pybool b => exact absurd rfl (hv b)
  | tensor n => rfl
  | vlist xs => rfl
  | pyint n => rfl
  | pynone => rfl

/-- C10 witness: the Python integer `1` is not a boolean, so
`set_verbosity(1)` fails and the flag stays `False`; `set_verbosity(True)`
flips it and `is_verbose` reports `True`. -/
theorem set_verbosity_spec_witness :
    set_verbosity false (.pyint 1) = (.error .assertionError, false) ∧
    set_verbosity false (.pybool true) = (.ok (), true) ∧
    is_verbose (set_verbosity false (.pybool true)).2 = true :=
  ⟨set_verbosity_spec.1 false (.pyint 1)
      (fun _ h => PyVal.noConfusion h),
   (set_verbosity_spec.2 false true).1,
   (set_verbosity_spec.2 false true).2⟩

end Curl
